import Mathlib

/-!
Shallow embedding of the MERU emulator front-end shell
(src/src/hotkey.rs and src/src/app.rs): the hotkey dispatcher
`process_hotkey`, the window reconciler `window_control_event` /
`restore_window`, the double-click debouncer `process_double_click`,
and the notification systems `message_event_system` /
`message_update_system`.

Modelling conventions:
- Per-event semantics: each Lean function processes one event against
  the current resources, exactly as one iteration of the corresponding
  `for ev in reader.iter()` loop in the source.
- A Rust `.unwrap()` that can fail (a panic that terminates the
  application) is modelled by an `Option` result: `none` means the
  system panicked.
- The outcome of the external emulation-core calls
  `save_state_slot` / `load_state_slot` at this tick is part of the
  modelled emulator resource (`saveOk` / `loadOk`); calls to `reset`
  and `push_auto_save` and emitted messages, logs and window-control
  events are recorded in an `Effects` record.
- Wall-clock time (`time.seconds_since_startup()`, an `f64` of
  seconds) is modelled by the rationals; all constants involved
  (0.25, 1.0, 3.0) and the claimed test instants are exactly
  representable, so no floating-point rounding is relevant to the
  compared quantities.
-/

namespace Meru

/-- The eleven logical hotkey actions (src/src/hotkey.rs, enum HotKey). -/
inductive HotKey
  | Reset
  | Turbo
  | StateSave
  | StateLoad
  | NextSlot
  | PrevSlot
  | Rewind
  | Menu
  | FullScreen
  | ScaleUp
  | ScaleDown
  deriving DecidableEq, Repr

/-- Application modes (src/src/app.rs, enum AppState). -/
inductive AppState
  | Menu
  | Running
  | Rewinding
  deriving DecidableEq, Repr

/-- Window-control events (src/src/app.rs, enum WindowControlEvent). -/
inductive WindowControlEvent
  | ToggleFullscreen
  | ChangeScale (scale : Nat)
  | Restore
  deriving DecidableEq, Repr

/-- The emulation-session resource as the shell sees it this tick:
whether `save_state_slot` / `load_state_slot` would succeed, and the
frame-buffer dimensions. -/
structure EmulatorModel where
  saveOk : Bool
  loadOk : Bool
  fbWidth : Nat
  fbHeight : Nat
  deriving DecidableEq, Repr

/-- src/src/app.rs, struct UiState: the save-slot index (a usize). -/
structure UiState where
  state_save_slot : Nat
  deriving DecidableEq, Repr

/-- The configuration fields the dispatcher mutates (config.scaling, a
usize). -/
structure Config where
  scaling : Nat
  deriving DecidableEq, Repr

/-- The resources `process_hotkey` reads and writes: the bevy mode
stack (head of `current :: suspended` is the active state; the stack
is never empty by construction), the optional emulator resource, the
UI state and the configuration. -/
structure AppModel where
  current : AppState
  suspended : List AppState
  emulator : Option EmulatorModel
  ui : UiState
  config : Config
  deriving DecidableEq, Repr

/-- Observable side effects of processing one hotkey event: user
notifications sent (ShowMessage), error-log lines, window-control
events, and how many times `reset` and `push_auto_save` were invoked
on the emulation session. -/
structure Effects where
  messages : List String := []
  errorLogs : List String := []
  windowEvents : List WindowControlEvent := []
  resetCalls : Nat := 0
  pushAutoSaveCalls : Nat := 0
  deriving DecidableEq, Repr

/-- One iteration of the event loop of `process_hotkey`
(src/src/hotkey.rs, lines 122-198). `none` models a panic:
`StateSave` unwraps the result of `save_state_slot`, and `Rewind`
unwraps the emulator resource while in Running mode. `app_state.set`
and `app_state.push` are unwrapped in the source as well, but in
every branch the target state differs from the current one, so those
unwraps cannot fail for a single event. Note: for `ScaleDown` the
source computes `(config.scaling - 1).max(1)` on a usize; for
`scaling >= 1` (the invariant of ScaleFactor) this agrees with
truncated `Nat` subtraction used here. -/
def processHotkey (hk : HotKey) (s : AppModel) : Option (AppModel × Effects) :=
  match hk with
  | .Reset =>
      match s.emulator with
      | some _ => some (s, { messages := ["Reset machine"], resetCalls := 1 })
      | none => some (s, {})
  | .StateSave =>
      match s.emulator with
      | some e =>
          if e.saveOk then
            some (s, { messages := ["State saved: #" ++ toString s.ui.state_save_slot] })
          else
            none
      | none => some (s, {})
  | .StateLoad =>
      match s.emulator with
      | some e =>
          if e.loadOk then
            some (s, { messages := ["State loaded: #" ++ toString s.ui.state_save_slot] })
          else
            some (s, { messages := ["Failed to load state"],
                       errorLogs := ["Failed to load state"] })
      | none => some (s, {})
  | .NextSlot =>
      let slot := s.ui.state_save_slot + 1
      some ({ s with ui := { state_save_slot := slot } },
            { messages := ["State slot changed: #" ++ toString slot] })
  | .PrevSlot =>
      let slot := s.ui.state_save_slot - 1
      some ({ s with ui := { state_save_slot := slot } },
            { messages := ["State slot changed: #" ++ toString slot] })
  | .Rewind =>
      if s.current = AppState.Running then
        match s.emulator with
        | some _ =>
            some ({ s with current := AppState.Rewinding,
                           suspended := s.current :: s.suspended },
                  { pushAutoSaveCalls := 1 })
        | none => none
      else
        some (s, {})
  | .Menu =>
      if s.current = AppState.Running then
        some ({ s with current := AppState.Menu }, {})
      else if s.current = AppState.Menu ∧ s.emulator.isSome then
        some ({ s with current := AppState.Running }, {})
      else
        some (s, {})
  | .FullScreen =>
      some (s, { windowEvents := [WindowControlEvent.ToggleFullscreen] })
  | .ScaleUp =>
      some ({ s with config := { scaling := s.config.scaling + 1 } },
            { windowEvents := [WindowControlEvent.Restore] })
  | .ScaleDown =>
      some ({ s with config := { scaling := max (s.config.scaling - 1) 1 } },
            { windowEvents := [WindowControlEvent.Restore] })
  | .Turbo => some (s, {})

/-- src/src/app.rs, fn restore_window (lines 258-278). The menu panel
size constants MENU_WIDTH / MENU_HEIGHT live in src/menu.rs, which is
not part of the provided sources, so they are passed as parameters.
Returns the resolution handed to `window.set_resolution`, or `none`
when the window is fullscreen and no explicit resolution is applied. -/
def restore_window (fbW fbH menuW menuH : Nat) (appState : AppState)
    (fullscreen : Bool) (scaling : Nat) : Option (Nat × Nat) :=
  let size :=
    if appState = AppState.Menu then (menuW, menuH)
    else (fbW * scaling, fbH * scaling)
  if fullscreen then none else some size

/-- One iteration of the event loop of `window_control_event`
(src/src/app.rs, lines 175-233). Returns the new fullscreen flag, the
new scaling, and the resolution applied to the window (if any);
`none` models a panic: the `Restore` arm unwraps the emulator
resource unconditionally, and the `ChangeScale` arm unwraps it while
in Running mode. -/
def window_control_event (ev : WindowControlEvent) (appState : AppState)
    (emulator : Option EmulatorModel) (menuW menuH : Nat)
    (fullscreen : Bool) (scaling : Nat) :
    Option (Bool × Nat × Option (Nat × Nat)) :=
  match ev with
  | .ToggleFullscreen =>
      let fs := !fullscreen
      let res :=
        match emulator with
        | some e => restore_window e.fbWidth e.fbHeight menuW menuH appState fs scaling
        | none => none
      some (fs, scaling, res)
  | .ChangeScale sc =>
      if appState = AppState.Running then
        match emulator with
        | some e =>
            some (fullscreen, sc,
                  restore_window e.fbWidth e.fbHeight menuW menuH appState fullscreen sc)
        | none => none
      else
        some (fullscreen, sc, none)
  | .Restore =>
      match emulator with
      | some e =>
          some (fullscreen, scaling,
                restore_window e.fbWidth e.fbHeight menuW menuH appState fullscreen scaling)
      | none => none

/-- One left-button press in `process_double_click` (src/src/app.rs,
lines 237-256). `cur` is the current time and `last_clicked` the
stored timestamp of the last press; returns the new stored timestamp
and whether a ToggleFullscreen event was sent. -/
def process_double_click (cur last_clicked : ℚ) : ℚ × Bool :=
  if cur - last_clicked < 1/4 then (cur - 1, true) else (cur, false)

/-- One on-screen notification: its creation timestamp (field `start`
of component MessageText, src/src/app.rs line 393-396) and its
vertical offset from the base spawn position (the Transform, moved up
by 20 for each newer message; the translucent backing sprite is a
child entity and shares the lifetime of the notification). -/
structure MessageText where
  start : ℚ
  offsetY : ℚ
  deriving DecidableEq, Repr

/-- Processing one ShowMessage event in `message_event_system`
(src/src/app.rs, lines 398-462). `screen` models the optional
GameScreen resource: `none` means the resource is absent (the system
returns before reading any event); `some found` means it is present
and `found` records whether the image-asset lookup, which is
unwrapped, succeeds. Each existing notification is eased upward by 20
and the new one is spawned at the base position (offset 0). -/
def message_event_system (now : ℚ) (screen : Option Bool)
    (msgs : List MessageText) : Option (List MessageText) :=
  match screen with
  | none => some msgs
  | some found =>
      if found then
        some ({ start := now, offsetY := 0 } ::
              msgs.map fun m => { m with offsetY := m.offsetY + 20 })
      else none

/-- src/src/app.rs, fn message_update_system (lines 464-474): every
tick, despawn (recursively, backing sprite included) each
notification whose age exceeds 3 seconds. -/
def message_update_system (now : ℚ) (msgs : List MessageText) :
    List MessageText :=
  msgs.filter fun m => decide (¬ (now - m.start > 3))

/-- Two consecutive runs of `message_event_system` over one
ShowMessage event sent just before the first run. The early return at
src/src/app.rs lines 407-411 happens before `event.iter()`, so when
the GameScreen resource is absent the event is left unread; the bevy
`Events` double buffer retains an event for two frames, and the
unadvanced `EventReader` cursor delivers it on the next run. So with
the screen absent at time `t1` and present (image found) at time
`t2` on the following tick — within the two-frame lifetime — the
retained event is read and processed at `t2`. -/
def message_event_deferred (t1 t2 : ℚ) (msgs : List MessageText) :
    Option (List MessageText) :=
  match message_event_system t1 none msgs with
  | none => none
  | some msgs1 => message_event_system t2 (some true) msgs1

end Meru

namespace Meru

/-- Sample emulator resource used by concrete witnesses. -/
def sampleEmu : EmulatorModel :=
  { saveOk := true, loadOk := true, fbWidth := 160, fbHeight := 144 }

/-- Sample emulator whose save_state_slot call fails this tick. -/
def sampleEmuSaveErr : EmulatorModel :=
  { saveOk := false, loadOk := true, fbWidth := 160, fbHeight := 144 }

/-- Sample emulator whose load_state_slot call fails this tick. -/
def sampleEmuLoadErr : EmulatorModel :=
  { saveOk := true, loadOk := false, fbWidth := 160, fbHeight := 144 }

/-- C1: contrary to the claim, two core-level paths do terminate the
application: a StateSave hotkey whose save_state_slot call returns an
error panics (the result is unwrapped), and a Restore window-control
event arriving when no emulation session exists panics (the absent
emulator resource is unwrapped). Both are modelled as `none`. -/
theorem save_error_and_sessionless_restore_panic :
    processHotkey HotKey.StateSave
      { current := AppState.Running, suspended := [],
        emulator := some sampleEmuSaveErr,
        ui := { state_save_slot := 0 }, config := { scaling := 1 } } = none ∧
    window_control_event WindowControlEvent.Restore AppState.Menu none
      960 768 false 1 = none :=
  ⟨rfl, rfl⟩

/-- C2: processing Rewind while Running (with a session present, as
Running states have) calls push_auto_save exactly once and pushes
Rewinding with Running suspended beneath; while Menu or Rewinding it
has no effect at all. -/
theorem rewind_hotkey_behavior (s : AppModel) :
    (s.current = AppState.Running → s.emulator.isSome = true →
      processHotkey HotKey.Rewind s =
        some ({ s with current := AppState.Rewinding,
                       suspended := AppState.Running :: s.suspended },
              { pushAutoSaveCalls := 1 })) ∧
    (s.current = AppState.Menu ∨ s.current = AppState.Rewinding →
      processHotkey HotKey.Rewind s = some (s, {})) := by
  constructor
  · intro hrun hemu
    match he : s.emulator with
    | some e => simp [processHotkey, hrun, he]
    | none => simp [he] at hemu
  · intro h
    rcases h with h | h <;> simp [processHotkey, h]

/-- Witness for C2 at a concrete Running state with a session. -/
theorem rewind_hotkey_behavior_witness :
    processHotkey HotKey.Rewind
      { current := AppState.Running, suspended := [], emulator := some sampleEmu,
        ui := { state_save_slot := 0 }, config := { scaling := 1 } } =
      some ({ current := AppState.Rewinding, suspended := [AppState.Running],
              emulator := some sampleEmu,
              ui := { state_save_slot := 0 }, config := { scaling := 1 } },
            { pushAutoSaveCalls := 1 }) :=
  (rewind_hotkey_behavior _).1 rfl rfl

/-- C3: processing StateLoad with a session present whose
load_state_slot call fails leaves the whole application state (mode
stack and slot index included) unchanged and produces exactly one
notification and exactly one error-log line. -/
theorem state_load_failure_behavior (s : AppModel) (e : EmulatorModel)
    (hemu : s.emulator = some e) (hload : e.loadOk = false) :
    processHotkey HotKey.StateLoad s =
      some (s, { messages := ["Failed to load state"],
                 errorLogs := ["Failed to load state"] }) := by
  simp [processHotkey, hemu, hload]

/-- Witness for C3 at a concrete state whose load call fails. -/
theorem state_load_failure_behavior_witness :
    processHotkey HotKey.StateLoad
      { current := AppState.Running, suspended := [],
        emulator := some sampleEmuLoadErr,
        ui := { state_save_slot := 2 }, config := { scaling := 1 } } =
      some ({ current := AppState.Running, suspended := [],
              emulator := some sampleEmuLoadErr,
              ui := { state_save_slot := 2 }, config := { scaling := 1 } },
            { messages := ["Failed to load state"],
              errorLogs := ["Failed to load state"] }) :=
  state_load_failure_behavior _ sampleEmuLoadErr rfl rfl

/-- C4: processing Menu from Running replaces the active mode by Menu
without pushing (the suspended stack is untouched); from Menu with a
session it replaces the active mode by Running; from Menu without a
session, or from Rewinding, it has no effect. -/
theorem menu_hotkey_behavior (s : AppModel) :
    (s.current = AppState.Running →
      processHotkey HotKey.Menu s =
        some ({ s with current := AppState.Menu }, {})) ∧
    (s.current = AppState.Menu → s.emulator.isSome = true →
      processHotkey HotKey.Menu s =
        some ({ s with current := AppState.Running }, {})) ∧
    (s.current = AppState.Menu → s.emulator = none →
      processHotkey HotKey.Menu s = some (s, {})) ∧
    (s.current = AppState.Rewinding →
      processHotkey HotKey.Menu s = some (s, {})) := by
  refine ⟨fun h => ?_, fun h he => ?_, fun h he => ?_, fun h => ?_⟩
  · simp [processHotkey, h]
  · simp [processHotkey, h, he]
  · simp [processHotkey, h, he]
  · simp [processHotkey, h]

/-- Witness for C4 at a concrete Running state. -/
theorem menu_hotkey_behavior_witness :
    processHotkey HotKey.Menu
      { current := AppState.Running, suspended := [], emulator := some sampleEmu,
        ui := { state_save_slot := 0 }, config := { scaling := 1 } } =
      some ({ current := AppState.Menu, suspended := [], emulator := some sampleEmu,
              ui := { state_save_slot := 0 }, config := { scaling := 1 } },
            {}) :=
  (menu_hotkey_behavior _).1 rfl

/-- C5 counterexample: processing NextSlot while no emulation session
exists does change the slot index (0 becomes 1) and does emit a
notification, refuting the claim that the event has no effect. -/
theorem slot_hotkey_without_session_counterexample :
    (processHotkey HotKey.NextSlot
      { current := AppState.Menu, suspended := [], emulator := none,
        ui := { state_save_slot := 0 }, config := { scaling := 1 } }).map
      (fun r => (r.1.ui.state_save_slot, r.2.messages)) =
    some (1, ["State slot changed: #1"]) := rfl

/-- C5 amended: NextSlot and PrevSlot are processed without any
session-presence guard: NextSlot increments the slot index and
PrevSlot saturating-decrements it, and each emits exactly one
notification, whether or not an emulation session exists. -/
theorem slot_hotkeys_unconditional (s : AppModel) :
    processHotkey HotKey.NextSlot s =
      some ({ s with ui := { state_save_slot := s.ui.state_save_slot + 1 } },
            { messages :=
                ["State slot changed: #" ++ toString (s.ui.state_save_slot + 1)] }) ∧
    processHotkey HotKey.PrevSlot s =
      some ({ s with ui := { state_save_slot := s.ui.state_save_slot - 1 } },
            { messages :=
                ["State slot changed: #" ++ toString (s.ui.state_save_slot - 1)] }) :=
  ⟨rfl, rfl⟩

end Meru

namespace Meru

/-- C6: a left press strictly less than 250 ms after the stored
timestamp toggles fullscreen once and stores the press time backdated
by 1000 ms; a press 250 ms or later stores its own time and does not
toggle. Concretely (times in seconds, stored timestamp starting at
0): presses at 10 and 10.2 toggle once on the second press; presses
at 10 and 10.3 never toggle; a press at 10.3, 100 ms after the
double-click registered at 10.2, does not toggle. -/
theorem double_click_behavior (cur last : ℚ) :
    (cur - last < 1/4 → process_double_click cur last = (cur - 1, true)) ∧
    (¬ cur - last < 1/4 → process_double_click cur last = (cur, false)) ∧
    process_double_click 10 0 = (10, false) ∧
    process_double_click (10 + 1/5) 10 = (10 + 1/5 - 1, true) ∧
    process_double_click (10 + 3/10) 10 = (10 + 3/10, false) ∧
    process_double_click (10 + 3/10) (10 + 1/5 - 1) = (10 + 3/10, false) := by
  refine ⟨fun h => ?_, fun h => ?_, ?_, ?_, ?_, ?_⟩
  · unfold process_double_click
    exact if_pos h
  · unfold process_double_click
    exact if_neg h
  · unfold process_double_click
    norm_num
  · unfold process_double_click
    norm_num
  · unfold process_double_click
    norm_num
  · unfold process_double_click
    norm_num

/-- Witness for C6: a press 100 ms after the stored timestamp is a
double-click. -/
theorem double_click_behavior_witness :
    process_double_click (1/10) 0 = (1/10 - 1, true) :=
  (double_click_behavior (1/10) 0).1 (by norm_num)

/-- C7: the restore reconciliation targets the menu panel size in
Menu mode and frame-buffer size times the integer scale otherwise,
and applies no resolution while fullscreen. -/
theorem restore_window_behavior (fbW fbH menuW menuH sc : Nat) (st : AppState) :
    restore_window fbW fbH menuW menuH AppState.Menu false sc = some (menuW, menuH) ∧
    (st ≠ AppState.Menu →
      restore_window fbW fbH menuW menuH st false sc = some (fbW * sc, fbH * sc)) ∧
    restore_window fbW fbH menuW menuH st true sc = none := by
  refine ⟨rfl, fun h => ?_, ?_⟩
  · simp [restore_window, h]
  · simp [restore_window]

/-- Witness for C7 in Running mode at scale 3. -/
theorem restore_window_behavior_witness :
    restore_window 160 144 960 768 AppState.Running false 3 = some (480, 432) :=
  (restore_window_behavior 160 144 960 768 3 AppState.Running).2.1 (by decide)

/-- C8: ScaleUp sets the scale to s + 1 and ScaleDown to
max (s - 1) 1 (so ScaleDown from 1 leaves 1), and each emits exactly
one Restore window-control event in the same tick. -/
theorem scale_hotkey_behavior (s : AppModel) (_h : 1 ≤ s.config.scaling) :
    processHotkey HotKey.ScaleUp s =
      some ({ s with config := { scaling := s.config.scaling + 1 } },
            { windowEvents := [WindowControlEvent.Restore] }) ∧
    processHotkey HotKey.ScaleDown s =
      some ({ s with config := { scaling := max (s.config.scaling - 1) 1 } },
            { windowEvents := [WindowControlEvent.Restore] }) ∧
    (s.config.scaling = 1 → max (s.config.scaling - 1) 1 = 1) := by
  refine ⟨rfl, rfl, fun h1 => ?_⟩
  simp [h1]

/-- Witness for C8 at scale 1: ScaleDown leaves the scale at 1. -/
theorem scale_hotkey_behavior_witness :
    processHotkey HotKey.ScaleDown
      { current := AppState.Running, suspended := [], emulator := some sampleEmu,
        ui := { state_save_slot := 0 }, config := { scaling := 1 } } =
      some ({ current := AppState.Running, suspended := [], emulator := some sampleEmu,
              ui := { state_save_slot := 0 }, config := { scaling := 1 } },
            { windowEvents := [WindowControlEvent.Restore] }) :=
  (scale_hotkey_behavior
      { current := AppState.Running, suspended := [], emulator := some sampleEmu,
        ui := { state_save_slot := 0 }, config := { scaling := 1 } }
      (by decide)).2.1

/-- C9: after the per-tick update at time `now`, a notification is
present exactly when it was present before and its age does not
exceed 3 seconds (so it survives every tick before start + 3 s and is
dropped, backing included, at the first tick its age exceeds 3 s);
and processing a show-message event (screen present) shifts every
existing notification by exactly one 20-pixel stacking step and
spawns the new one at the base offset. -/
theorem notification_lifetime_and_stacking (now : ℚ) (m : MessageText)
    (msgs : List MessageText) :
    (m ∈ message_update_system now msgs ↔ m ∈ msgs ∧ ¬ now - m.start > 3) ∧
    message_event_system now (some true) msgs =
      some ({ start := now, offsetY := 0 } ::
            msgs.map fun x => { x with offsetY := x.offsetY + 20 }) := by
  constructor
  · simp [message_update_system, List.mem_filter]
  · rfl

/-- C10 counterexample: a show-message event arriving while no
game-screen resource exists is not discarded, refuting the claim that
such messages are never displayed: sent at time 0 with the screen
absent, it is left unread in the retained event buffer, and when the
screen appears on the next tick (time 1/60) the same event is read
and the notification is created then. -/
theorem show_message_without_screen_counterexample :
    message_event_deferred 0 (1/60) [] =
      some [{ start := 1/60, offsetY := 0 }] := rfl

/-- C10 amended: a show-message event arriving while no game-screen
resource exists is not read on that tick — no notification is
created, no existing notification is shifted, and nothing panics —
but the event stays in the event buffer (retained one further frame),
and if a game screen is present on the next tick the retained event
is read then: the existing notifications are shifted one stacking
step and the deferred notification is spawned at the base offset with
that later timestamp. -/
theorem show_message_without_screen_deferred (t1 t2 : ℚ)
    (msgs : List MessageText) :
    message_event_system t1 none msgs = some msgs ∧
    message_event_deferred t1 t2 msgs =
      some ({ start := t2, offsetY := 0 } ::
            msgs.map fun x => { x with offsetY := x.offsetY + 20 }) :=
  ⟨rfl, rfl⟩

end Meru
